import Mathlib

/-!
Verification development for the DocMail draft-generation service.

The definitions below are a shallow embedding of the Python sources:
`backend/models.py`, `backend/main.py`, `core/runpod_service.py`,
`core/aws_service.py` and `prompts/manager.py`.  Python strings are
modelled by `String` (a list of characters, matching the Python
code-point view of `str`); the string helpers below reimplement the
exact Python primitives used by the code (`str.lower`, `in`
substring test, `str.replace` with empty replacement, `str.strip`,
`"".join`, truthiness of `x or y`).  Network traffic and exceptions
are made explicit: the outcome of the single outbound HTTP call is an
oracle parameter, and raised exceptions become `Except` errors.
-/

/-! ## Python string primitives -/

/-- `s.lower()` on the character list.  `Char.toLower` lowers the ASCII
range, which covers every string this service compares. -/
def pyLower (s : String) : String := ⟨s.data.map Char.toLower⟩

/-- Substring occurrence test on character lists: `containsAux pat l`
is `true` iff `pat` occurs contiguously in `l`. -/
def containsAux (pat : List Char) : List Char → Bool
  | [] => pat.isEmpty
  | c :: rest => pat.isPrefixOf (c :: rest) || containsAux pat rest

/-- The Python `needle in hay` substring test. -/
def pyContains (needle hay : String) : Bool :=
  containsAux needle.data hay.data

/-- One fuel-indexed pass of the Python `s.replace(pat, "")`: remove the
leftmost occurrence of `pat`, continue after it, left to right.  The
fuel only makes the recursion structural; `fuel ≥ l.length` steps
always suffice because every step consumes at least one character. -/
def eraseOccsFuel (pat : List Char) : Nat → List Char → List Char
  | 0, l => l
  | _ + 1, [] => []
  | n + 1, c :: rest =>
    if pat.isEmpty = false ∧ pat.isPrefixOf (c :: rest) = true then
      eraseOccsFuel pat n ((c :: rest).drop pat.length)
    else
      c :: eraseOccsFuel pat n rest

/-- The Python `s.replace(pat, "")` for a non-empty pattern. -/
def pyReplaceDel (pat s : String) : String :=
  ⟨eraseOccsFuel pat.data s.data.length s.data⟩

/-- The Python `s.strip()`: drop leading and trailing whitespace. -/
def pyStrip (s : String) : String :=
  ⟨((s.data.dropWhile Char.isWhitespace).reverse.dropWhile Char.isWhitespace).reverse⟩

/-- The Python `x or y` on an optional string: `None` and the empty
string are falsy, so both fall through to the right operand. -/
def pyOrStr : Option String → String → String
  | none, d => d
  | some s, d => if s = "" then d else s

/-! ## backend/models.py -/

/-- `DraftRequest` exactly as declared in `backend/models.py`: the
pydantic model has the single field `patient_email` and no
`model_source` field. -/
structure DraftRequest where
  patient_email : String
deriving Repr

/-- `DraftResponse` from `backend/models.py`. -/
structure DraftResponse where
  draft_reply : String
  source_nodes : List String
deriving Repr, DecidableEq

/-- Pydantic attribute access on a `DraftRequest` instance: a declared
field yields its value, any other name raises `AttributeError`,
modelled as `none`. -/
def DraftRequest.getattr (r : DraftRequest) (attr : String) : Option String :=
  if attr = "patient_email" then some r.patient_email else none

/-! ## prompts/manager.py -/

/-- The TOML prompt table loaded by `PromptManager.__init__`:
sections mapping names to template bodies (dict-of-dicts, keys
unique, looked up by exact match). -/
def PromptStore : Type := List (String × List (String × String))

/-- Error message of the `KeyError` re-raised by
`PromptManager.get_prompt` (Python renders the two names inside
single quotes; the quotes are elided here). -/
def promptKeyErrorMsg (ns key : String) : String :=
  "Prompt " ++ key ++ " not found in section " ++ ns ++ "."

/-- `PromptManager.get_prompt`: `self._prompts[section][name]`, with a
`KeyError` (modelled as `Except.error`) when either index is absent. -/
def PromptManager.get_prompt (prompts : PromptStore) (ns key : String) :
    Except String String :=
  match List.lookup ns prompts with
  | none => .error (promptKeyErrorMsg ns key)
  | some sec =>
    match List.lookup key sec with
    | none => .error (promptKeyErrorMsg ns key)
    | some body => .ok body

/-- The registered templates: `some body` iff the `(ns, key)` pair is
present in the loaded table. -/
def PromptStore.registered (prompts : PromptStore) (ns key : String) :
    Option String :=
  (List.lookup ns prompts).bind fun sec => List.lookup key sec

/-! ## core/runpod_service.py -/

/-- Keyword arguments accepted by `generate_draft` (`**kwargs`):
`kwargs.get` with a default is `Option.getD`.  Temperatures are the
rational values of the Python float literals; they are only ever
constructed and compared, never computed with. -/
structure Kwargs where
  temperature : Option Rat := none
  max_tokens : Option Nat := none
deriving Repr

/-- `sampling_params` of the outbound vLLM payload. -/
structure SamplingParams where
  max_tokens : Nat
  temperature : Rat
  stop : List String
deriving Repr

/-- The outbound JSON payload built by `RunPodService.generate_draft`. -/
structure RunPodPayload where
  system_message : String
  user_message : String
  sampling_params : SamplingParams
deriving Repr

/-- The `timeout=60` argument of the `requests.post` call (seconds,
chosen for serverless cold starts). -/
def RunPodService.timeoutSeconds : Nat := 60

/-- Payload construction from `RunPodService.generate_draft` lines
17–34: message pair plus `sampling_params` with `kwargs.get`
defaults. -/
def RunPodService.buildPayload (system_prompt user_prompt : String)
    (kwargs : Kwargs) : RunPodPayload :=
  { system_message := system_prompt
    user_message := user_prompt
    sampling_params :=
      { max_tokens := kwargs.max_tokens.getD 1024
        temperature := kwargs.temperature.getD 0.6
        stop := ["<|end_of_text|>", "<|eot_id|>"] } }

/-- The `tokens` entry of a vLLM choice: the backend may send either a
raw string or a list of token fragments. -/
inductive TokensField where
  | str (s : String)
  | list (ts : List String)
deriving Repr

/-- One element of `choices`: optional `text` and `tokens` keys
(`"text" in first_choice` / `"tokens" in first_choice`). -/
structure VllmChoice where
  text : Option String := none
  tokens : Option TokensField := none
deriving Repr

/-- One element of `data["output"]`; `.get("choices", [])` makes an
absent `choices` key behave exactly like the empty list. -/
structure OutputItem where
  choices : List VllmChoice := []
deriving Repr

/-- The decoded response body `data`: `output := none` models a JSON
object without an `"output"` key. -/
structure VllmData where
  output : Option (List OutputItem) := none
deriving Repr

/-- Text extraction from the first choice: `text` wins over `tokens`;
a token list is joined with `"".join`; with neither key the running
`text_content` stays `""`. -/
def extractText (c : VllmChoice) : String :=
  match c.text with
  | some s => s
  | none =>
    match c.tokens with
    | some (.list ts) => String.join ts
    | some (.str s) => s
    | none => ""

/-- The final cleanup of `RunPodService.generate_draft`: strip both
stop tokens, then trim surrounding whitespace. -/
def cleanupText (s : String) : String :=
  pyStrip (pyReplaceDel "<|eot_id|>" (pyReplaceDel "<|end_of_text|>" s))

/-- The fixed placeholder returned for an empty or absent result list. -/
def noContentMsg : String := "Error: Model returned no content."

/-- The vLLM response parsing of `RunPodService.generate_draft` lines
46–63: require a non-empty `output`, take its first item, take the
first choice, extract and clean the text; every other shape falls
through to the placeholder. -/
def RunPodService.parseResponse (data : VllmData) : String :=
  match data.output with
  | some (first :: _) =>
    match first.choices with
    | c :: _ => cleanupText (extractText c)
    | [] => noContentMsg
  | _ => noContentMsg

/-- Exceptions raised on the request path. -/
inductive PyExc where
  | timeoutError (msg : String)
  | httpStatusError (status : Nat)
deriving Repr

/-- `str(e)` for the exceptions above (`raise_for_status` renders the
status code in its message). -/
def PyExc.message : PyExc → String
  | .timeoutError m => m
  | .httpStatusError status => "HTTP error " ++ toString status

/-- Message of the `TimeoutError` raised on a `requests` timeout. -/
def coldStartMessage : String :=
  "The Physician Model is waking up. Please try again in 1 minute."

/-- Outcome of the single outbound `requests.post` call, supplied as
an oracle: the 60-second ceiling elapsed, or a response with a status
code and decoded JSON body. -/
inductive HttpOutcome where
  | timeout
  | response (status : Nat) (data : VllmData)

/-- `RunPodService.generate_draft`: build the payload, post it, and
either map a timeout to the cold-start `TimeoutError`, propagate the
`raise_for_status` error for a 4xx/5xx status, or parse the body.
The returned pair is (payload sent, result or exception). -/
def RunPodService.generate_draft (system_prompt user_prompt : String)
    (kwargs : Kwargs) (net : HttpOutcome) :
    RunPodPayload × Except PyExc String :=
  let payload := RunPodService.buildPayload system_prompt user_prompt kwargs
  match net with
  | .timeout => (payload, .error (.timeoutError coldStartMessage))
  | .response status data =>
    if 400 ≤ status then (payload, .error (.httpStatusError status))
    else (payload, .ok (RunPodService.parseResponse data))

/-! ## backend/main.py -/

/-- The two provider variants the routing step can resolve to. -/
inductive ProviderKind where
  | runpod
  | bedrock
deriving Repr, DecidableEq

/-- The slice of `app.state` the `/generate` handler reads: the two
provider handles as built by the lifespan startup (`none` when
construction failed or credentials were missing), the configured
default `llm_source`, and the loaded prompt table. -/
structure AppState where
  runpod : Option Unit
  aws : Option Unit
  llm_source : String
  prompts : PromptStore

/-- `requested_source = (request.model_source or config.llm_source).lower()`. -/
def resolveSource (model_source : Option String) (llm_source : String) : String :=
  pyLower (pyOrStr model_source llm_source)

/-- The client-selection branch of the handler:
`if "runpod" in requested_source` picks the fine-tuned variant,
everything else defaults to Bedrock. -/
def selectedProvider (requested_source : String) : ProviderKind :=
  if pyContains "runpod" requested_source then .runpod else .bedrock

/-- End-to-end routing: resolve the requested source, then select. -/
def route (model_source : Option String) (llm_source : String) : ProviderKind :=
  selectedProvider (resolveSource model_source llm_source)

/-- The call-site temperature expression
`0.6 if "runpod" in requested_source else 0.3`. -/
def orchestratorTemperature (requested_source : String) : Rat :=
  if pyContains "runpod" requested_source then 0.6 else 0.3

/-- Source label attached on the fine-tuned path. -/
def runpodSourceLabel : String := "Fine-Tuned Llama 3 (RunPod)"

/-- 503 detail for a missing RunPod handle. -/
def runpodUnavailableDetail : String :=
  "RunPod service is not configured or failed to start."

/-- 503 detail for a missing AWS handle. -/
def awsUnavailableDetail : String := "AWS Bedrock service is not configured."

/-- `str(e)` of the `AttributeError` raised because `AwsService` in
`core/aws_service.py` defines no `generate_draft` method (Python
renders the class and attribute names inside single quotes; the
quotes are elided here). -/
def awsMissingGenerateMsg : String :=
  "AwsService object has no attribute generate_draft"

/-- A provider `generate_draft` invocation attempted by the handler,
recorded with the keyword arguments written at the call site. -/
inductive ProviderCall where
  | runpodCall (system_prompt user_prompt : String) (kwargs : Kwargs)
  | bedrockCall (system_prompt user_prompt : String) (kwargs : Kwargs)
deriving Repr

/-- Keyword arguments of a recorded invocation. -/
def ProviderCall.kwargs : ProviderCall → Kwargs
  | .runpodCall _ _ kw => kw
  | .bedrockCall _ _ kw => kw

/-- What the HTTP layer sees from one handler run: a 200 with a
`DraftResponse`, an `HTTPException` envelope carrying a status and a
`detail` string, or an exception that escaped the handler (FastAPI
then answers with a generic 500). -/
inductive HandlerResult where
  | ok (resp : DraftResponse)
  | httpError (status : Nat) (detail : String)
  | crash (msg : String)
deriving Repr

/-- The body of the `/generate` handler from the point where the value
of `request.model_source` is in hand (`backend/main.py` lines
129–181).  Resolve the source, pick the client or fail 503, fetch the
fixed prompt of the variant (a missing key raises before the `try`, so it
escapes as `crash`), then invoke the provider with the call-site
keyword arguments.  On the Bedrock path the attribute lookup
`client.generate_draft` fails — `AwsService` has no such method — and
the `except Exception` arm wraps the `AttributeError` into a 500
envelope.  The second component records the attempted provider
invocations. -/
def generate_draft_body (st : AppState) (model_source : Option String)
    (patient_email : String) (net : HttpOutcome) :
    HandlerResult × List ProviderCall :=
  let requested_source := resolveSource model_source st.llm_source
  if pyContains "runpod" requested_source then
    match st.runpod with
    | none => (.httpError 503 runpodUnavailableDetail, [])
    | some _ =>
      match PromptManager.get_prompt st.prompts "docmail" "physician_system_prompt" with
      | .error m => (.crash m, [])
      | .ok system_prompt =>
        let kwargs : Kwargs :=
          { temperature := some (orchestratorTemperature requested_source)
            max_tokens := some 1024 }
        let call := ProviderCall.runpodCall system_prompt patient_email kwargs
        match (RunPodService.generate_draft system_prompt patient_email kwargs net).2 with
        | .ok draft_text =>
          (.ok { draft_reply := draft_text, source_nodes := [runpodSourceLabel] }, [call])
        | .error e => (.httpError 500 e.message, [call])
  else
    match st.aws with
    | none => (.httpError 503 awsUnavailableDetail, [])
    | some _ =>
      match PromptManager.get_prompt st.prompts "docmail" "rag_system_prompt" with
      | .error m => (.crash m, [])
      | .ok system_prompt =>
        let kwargs : Kwargs :=
          { temperature := some (orchestratorTemperature requested_source)
            max_tokens := some 1024 }
        (.httpError 500 awsMissingGenerateMsg,
         [ProviderCall.bedrockCall system_prompt patient_email kwargs])

/-- Message of the `AttributeError` raised by
`request.model_source` on the `DraftRequest` of `backend/models.py`
(Python quotes elided). -/
def modelSourceAttrErrorMsg : String :=
  "DraftRequest object has no attribute model_source"

/-- The full `/generate` handler on a validated `DraftRequest`: the
very first routing step reads `request.model_source`; since
`DraftRequest` declares no such field, the attribute access raises
before the `try` block and the request fails with an escaped
`AttributeError`.  (Had the field existed, its value would have been
handed to `generate_draft_body`.) -/
def generate_draft (st : AppState) (req : DraftRequest) (net : HttpOutcome) :
    HandlerResult × List ProviderCall :=
  match req.getattr "model_source" with
  | none => (.crash modelSourceAttrErrorMsg, [])
  | some v => generate_draft_body st (some v) req.patient_email net

/-- A concrete prompt table holding both fixed templates, used to
instantiate theorems at closed inputs. -/
def samplePrompts : PromptStore :=
  [("docmail",
    [("physician_system_prompt", "PHYSICIAN TEMPLATE"),
     ("rag_system_prompt", "RAG TEMPLATE")])]

/-! ## Helper lemmas -/

/-- Lowercasing preserves emptiness: only the empty string lowers to
the empty string. -/
theorem pyLower_empty_iff (s : String) : pyLower s = "" ↔ s = "" := by
  constructor
  · intro h
    obtain ⟨d⟩ := s
    have hmap : d.map Char.toLower = [] := by
      have := congrArg String.data h
      simpa [pyLower] using this
    have hd : d = [] := List.map_eq_nil_iff.mp hmap
    subst hd
    rfl
  · intro h
    subst h
    rfl

/-- Routing on a non-empty explicit source ignores the configured
default. -/
theorem route_some_ne_empty (s cfg : String) (hs : s ≠ "") :
    route (some s) cfg = selectedProvider (pyLower s) := by
  unfold route resolveSource pyOrStr
  simp [hs]

/-! ## Claims -/

/-- C1: the claim says a body carrying only `patient_email` is
accepted and that the handler reads the optional `model_source`,
falling back to the configured default when it is absent.  The code
disagrees with itself: `backend/main.py` reads
`request.model_source`, but the `DraftRequest` model of
`backend/models.py` declares no `model_source` field, so the
attribute access raises `AttributeError` on every request and the
handler crashes (a generic 500) instead of falling back to the
default.  Evaluated here at the failing input
`{patient_email := "hi"}`. -/
theorem C1_generate_reads_missing_model_source_field :
    DraftRequest.getattr ⟨"hi"⟩ "model_source" = none ∧
    (generate_draft ⟨some (), some (), "bedrock", samplePrompts⟩ ⟨"hi"⟩
        (.response 200 {})).1 = .crash modelSourceAttrErrorMsg :=
  ⟨rfl, rfl⟩

/-- C2: the claim says the request
`{patient_email := "My rash is getting worse"}` with default routing
to the managed variant selects the RAG template, calls the managed
provider, and returns `source_nodes` reflecting retrieval.  The code
selects the RAG template but then fails: `AwsService` in
`core/aws_service.py` defines no `generate_draft` method, so the
invocation raises `AttributeError` and the handler answers with a 500
envelope; the handler also never consults the retrieval collaborator
(`source_nodes` would be the static label unconditionally).  The full
endpoint moreover crashes even earlier on the missing `model_source`
field (see C1). -/
theorem C2_managed_variant_has_no_generate :
    generate_draft_body ⟨some (), some (), "bedrock", samplePrompts⟩ none
      "My rash is getting worse" (.response 200 {}) =
      (.httpError 500 awsMissingGenerateMsg,
       [.bedrockCall "RAG TEMPLATE" "My rash is getting worse" ⟨some 0.3, some 1024⟩]) ∧
    (generate_draft ⟨some (), some (), "bedrock", samplePrompts⟩
        ⟨"My rash is getting worse"⟩ (.response 200 {})).1 =
      .crash modelSourceAttrErrorMsg :=
  ⟨rfl, rfl⟩

/-- C3: routing always resolves to exactly one of the two provider
variants, and casing is irrelevant — two requested sources equal up
to case route identically, and an unset source routes by the
configured default. -/
theorem C3_routing_total_and_case_insensitive :
    (∀ ms cfg, route ms cfg = ProviderKind.runpod ∨ route ms cfg = ProviderKind.bedrock) ∧
    (∀ s t cfg, pyLower s = pyLower t → route (some s) cfg = route (some t) cfg) ∧
    (∀ cfg, route none cfg = selectedProvider (pyLower cfg)) := by
  refine ⟨?_, ?_, ?_⟩
  · intro ms cfg
    unfold route selectedProvider
    by_cases h : pyContains "runpod" (resolveSource ms cfg) <;> simp [h]
  · intro s t cfg h
    by_cases hs : s = ""
    · by_cases ht : t = ""
      · rw [hs, ht]
      · exact absurd ((pyLower_empty_iff t).mp (by rw [← h, hs]; rfl)) ht
    · by_cases ht : t = ""
      · exact absurd ((pyLower_empty_iff s).mp (by rw [h, ht]; rfl)) hs
      · rw [route_some_ne_empty s cfg hs, route_some_ne_empty t cfg ht, h]
  · intro cfg
    rfl

/-- Witness for C3 at `"RunPod"` versus `"runpod"`. -/
theorem C3_witness_runpod_casing :
    pyLower "RunPod" = pyLower "runpod" ∧
    route (some "RunPod") "bedrock" = route (some "runpod") "bedrock" :=
  ⟨rfl, C3_routing_total_and_case_insensitive.2.1 "RunPod" "runpod" "bedrock" rfl⟩

/-- C4: when the resolved provider handle was never constructed, the
handler fails with a 503 envelope and attempts no provider
invocation (the recorded call list is empty). -/
theorem C4_missing_handle_503_no_call :
    ∀ st ms pe net,
      (pyContains "runpod" (resolveSource ms st.llm_source) = true → st.runpod = none →
        generate_draft_body st ms pe net = (.httpError 503 runpodUnavailableDetail, [])) ∧
      (pyContains "runpod" (resolveSource ms st.llm_source) = false → st.aws = none →
        generate_draft_body st ms pe net = (.httpError 503 awsUnavailableDetail, [])) := by
  intro st ms pe net
  constructor
  · intro h1 h2
    unfold generate_draft_body
    simp [h1, h2]
  · intro h1 h2
    unfold generate_draft_body
    simp [h1, h2]

/-- Witness for C4: a missing RunPod handle and a missing AWS handle
both produce a 503 with no recorded provider call. -/
theorem C4_witness_missing_handles :
    generate_draft_body ⟨none, some (), "runpod", samplePrompts⟩ none "hi" .timeout =
      (.httpError 503 runpodUnavailableDetail, []) ∧
    generate_draft_body ⟨some (), none, "bedrock", samplePrompts⟩ none "hi" .timeout =
      (.httpError 503 awsUnavailableDetail, []) :=
  ⟨(C4_missing_handle_503_no_call ⟨none, some (), "runpod", samplePrompts⟩ none "hi"
      .timeout).1 (by decide) rfl,
   (C4_missing_handle_503_no_call ⟨some (), none, "bedrock", samplePrompts⟩ none "hi"
      .timeout).2 (by decide) rfl⟩

/-- C5: on the payload
`output = [ { choices = [ { tokens = ["Hello ", "world", eot] } ] } ]`
the fine-tuned parser concatenates the fragments in order, strips the
sentinel end-of-sequence marker and trims, yielding exactly
`"Hello world"` — both at the parser and through `generate_draft` on
a 200 response. -/
theorem C5_parser_concat_strip_trim :
    RunPodService.parseResponse
      ⟨some [⟨[⟨none, some (.list ["Hello ", "world", "<|eot_id|>"])⟩]⟩]⟩ = "Hello world" ∧
    (RunPodService.generate_draft "sys" "user" {} (.response 200
      ⟨some [⟨[⟨none, some (.list ["Hello ", "world", "<|eot_id|>"])⟩]⟩]⟩)).2 =
      .ok "Hello world" :=
  ⟨rfl, rfl⟩

/-- C6: every payload whose `output` list is empty or absent yields
the fixed placeholder string — `generate_draft` returns it as a
normal value rather than raising. -/
theorem C6_empty_output_placeholder :
    ∀ (d : VllmData) (sp up : String) (kw : Kwargs),
      d.output = none ∨ d.output = some [] →
      RunPodService.parseResponse d = noContentMsg ∧
      (RunPodService.generate_draft sp up kw (.response 200 d)).2 = .ok noContentMsg := by
  intro d sp up kw h
  have hp : RunPodService.parseResponse d = noContentMsg := by
    unfold RunPodService.parseResponse
    rcases h with h | h <;> rw [h]
  refine ⟨hp, ?_⟩
  have hbase : (RunPodService.generate_draft sp up kw (.response 200 d)).2 =
      .ok (RunPodService.parseResponse d) := rfl
  rw [hbase, hp]

/-- Witness for C6 at the concrete payload `output = []`. -/
theorem C6_witness_empty_output :
    RunPodService.parseResponse ⟨some []⟩ = noContentMsg ∧
    (RunPodService.generate_draft "sys" "user" {} (.response 200 ⟨some []⟩)).2 =
      .ok noContentMsg :=
  C6_empty_output_placeholder ⟨some []⟩ "sys" "user" {} (Or.inr rfl)

/-- C7: absent an explicit temperature, the fine-tuned provider
defaults its sampling temperature to 0.6; the orchestrator call-site
expression yields 0.6 on the fine-tuned path and 0.3 on the managed
path; and every provider invocation the handler records carries
exactly those temperatures. -/
theorem C7_temperature_defaults :
    (∀ sp up, (RunPodService.buildPayload sp up {}).sampling_params.temperature = 0.6) ∧
    (∀ rs, pyContains "runpod" rs = true → orchestratorTemperature rs = 0.6) ∧
    (∀ rs, pyContains "runpod" rs = false → orchestratorTemperature rs = 0.3) ∧
    (∀ st ms pe net sp up kw,
      ProviderCall.runpodCall sp up kw ∈ (generate_draft_body st ms pe net).2 →
      kw.temperature = some 0.6) ∧
    (∀ st ms pe net sp up kw,
      ProviderCall.bedrockCall sp up kw ∈ (generate_draft_body st ms pe net).2 →
      kw.temperature = some 0.3) := by
  refine ⟨fun sp up => rfl, ?_, ?_, ?_, ?_⟩
  · intro rs h
    unfold orchestratorTemperature
    simp [h]
  · intro rs h
    unfold orchestratorTemperature
    simp [h]
  · intro st ms pe net sp up kw h
    by_cases hc : pyContains "runpod" (resolveSource ms st.llm_source)
    · simp only [generate_draft_body, hc, if_true] at h
      rcases hru : st.runpod with _ | u <;> rw [hru] at h
      · simp at h
      · rcases hgp : PromptManager.get_prompt st.prompts "docmail" "physician_system_prompt"
            with m | sp2 <;> rw [hgp] at h
        · simp at h
        · rcases hr2 : (RunPodService.generate_draft sp2 pe
              { temperature := some (orchestratorTemperature (resolveSource ms st.llm_source)),
                max_tokens := some 1024 } net).2 with e | dt <;>
            simp [hr2] at h
          · obtain ⟨h1, h2, h3⟩ := h
            rw [h3]
            simp [orchestratorTemperature, hc]
          · obtain ⟨h1, h2, h3⟩ := h
            rw [h3]
            simp [orchestratorTemperature, hc]
    · simp only [Bool.not_eq_true] at hc
      simp only [generate_draft_body, hc, Bool.false_eq_true, if_false] at h
      rcases haw : st.aws with _ | u <;> rw [haw] at h
      · simp at h
      · rcases hgp : PromptManager.get_prompt st.prompts "docmail" "rag_system_prompt"
            with m | sp2 <;> rw [hgp] at h
        · simp at h
        · simp at h
  · intro st ms pe net sp up kw h
    by_cases hc : pyContains "runpod" (resolveSource ms st.llm_source)
    · simp only [generate_draft_body, hc, if_true] at h
      rcases hru : st.runpod with _ | u <;> rw [hru] at h
      · simp at h
      · rcases hgp : PromptManager.get_prompt st.prompts "docmail" "physician_system_prompt"
            with m | sp2 <;> rw [hgp] at h
        · simp at h
        · rcases hr2 : (RunPodService.generate_draft sp2 pe
              { temperature := some (orchestratorTemperature (resolveSource ms st.llm_source)),
                max_tokens := some 1024 } net).2 with e | dt <;>
            simp [hr2] at h
    · simp only [Bool.not_eq_true] at hc
      simp only [generate_draft_body, hc, Bool.false_eq_true, if_false] at h
      rcases haw : st.aws with _ | u <;> rw [haw] at h
      · simp at h
      · rcases hgp : PromptManager.get_prompt st.prompts "docmail" "rag_system_prompt"
            with m | sp2 <;> rw [hgp] at h
        · simp at h
        · simp at h
          obtain ⟨h1, h2, h3⟩ := h
          rw [h3]
          simp [orchestratorTemperature, hc]

/-- Witness for C7: the provider default on empty kwargs, and the two
recorded call temperatures at concrete handler runs. -/
theorem C7_witness_temperatures :
    (RunPodService.buildPayload "sys" "user" {}).sampling_params.temperature = 0.6 ∧
    Kwargs.temperature ⟨some 0.6, some 1024⟩ = some 0.6 ∧
    Kwargs.temperature ⟨some 0.3, some 1024⟩ = some 0.3 :=
  ⟨C7_temperature_defaults.1 "sys" "user",
   C7_temperature_defaults.2.2.2.1 ⟨some (), some (), "runpod", samplePrompts⟩ none "hi"
     .timeout "PHYSICIAN TEMPLATE" "hi" ⟨some 0.6, some 1024⟩ (List.Mem.head _),
   C7_temperature_defaults.2.2.2.2 ⟨some (), some (), "bedrock", samplePrompts⟩ none "hi"
     .timeout "RAG TEMPLATE" "hi" ⟨some 0.3, some 1024⟩ (List.Mem.head _)⟩

/-- C8: the outbound call carries the configured 60-second ceiling;
when the HTTP client reports a timeout the provider raises the
cold-start timeout error, and the handler surfaces it to the caller
as a 500 envelope carrying the retry message instead of hanging. -/
theorem C8_timeout_cold_start_surfaced :
    RunPodService.timeoutSeconds = 60 ∧
    (∀ sp up kw, (RunPodService.generate_draft sp up kw .timeout).2 =
      .error (.timeoutError coldStartMessage)) ∧
    (∀ st ms pe u sp,
      pyContains "runpod" (resolveSource ms st.llm_source) = true →
      st.runpod = some u →
      PromptManager.get_prompt st.prompts "docmail" "physician_system_prompt" = .ok sp →
      (generate_draft_body st ms pe .timeout).1 = .httpError 500 coldStartMessage) := by
  refine ⟨rfl, fun sp up kw => rfl, ?_⟩
  intro st ms pe u sp h1 h2 h3
  simp only [generate_draft_body, h1, if_true, h2, h3]
  rfl

/-- Witness for C8 at a concrete state with a constructed RunPod
handle and the loaded prompt table. -/
theorem C8_witness_timeout :
    (generate_draft_body ⟨some (), some (), "runpod", samplePrompts⟩ none "hi" .timeout).1 =
      .httpError 500 coldStartMessage :=
  C8_timeout_cold_start_surfaced.2.2 ⟨some (), some (), "runpod", samplePrompts⟩ none "hi"
    () "PHYSICIAN TEMPLATE" (by decide) rfl rfl

/-- C9: looking up an unregistered `(namespace, key)` pair always
fails with the key error and never returns any string (in particular
not the empty string); looking up a registered pair returns the
stored template body. -/
theorem C9_prompt_lookup_contract :
    ∀ prompts ns key,
      (PromptStore.registered prompts ns key = none →
        PromptManager.get_prompt prompts ns key = .error (promptKeyErrorMsg ns key) ∧
        ∀ body, PromptManager.get_prompt prompts ns key ≠ .ok body) ∧
      (∀ body, PromptStore.registered prompts ns key = some body →
        PromptManager.get_prompt prompts ns key = .ok body) := by
  intro prompts ns key
  constructor
  · intro h
    unfold PromptStore.registered at h
    unfold PromptManager.get_prompt
    rcases hsec : List.lookup ns prompts with _ | sec
    · simp
    · rw [hsec] at h
      simp only [Option.some_bind] at h
      simp [h]
  · intro body h
    unfold PromptStore.registered at h
    unfold PromptManager.get_prompt
    rcases hsec : List.lookup ns prompts with _ | sec
    · rw [hsec] at h
      simp at h
    · rw [hsec] at h
      simp only [Option.some_bind] at h
      simp [h]

/-- Witness for C9: an unregistered key errors, a registered key
returns its body, on the loaded table. -/
theorem C9_witness_prompt_table :
    PromptManager.get_prompt samplePrompts "docmail" "missing_key" =
      .error (promptKeyErrorMsg "docmail" "missing_key") ∧
    PromptManager.get_prompt samplePrompts "docmail" "rag_system_prompt" =
      .ok "RAG TEMPLATE" :=
  ⟨((C9_prompt_lookup_contract samplePrompts "docmail" "missing_key").1 (by decide)).1,
   (C9_prompt_lookup_contract samplePrompts "docmail" "rag_system_prompt").2
     "RAG TEMPLATE" (by decide)⟩

/-- C10 counterexample: the claim as stated says the empty
`model_source` routes to the managed (Bedrock) variant, but the
Python `or` treats the empty string as falsy, so with the configured
default `"runpod"` it routes to the fine-tuned variant instead. -/
theorem C10_counterexample_empty_string :
    route (some "") "runpod" = ProviderKind.runpod ∧
    route (some "") "runpod" ≠ ProviderKind.bedrock := by
  decide

/-- C10 amended: every source whose lowercased form contains
`"runpod"` routes to the fine-tuned variant; every other non-empty
source routes to the managed variant; the empty string is falsy and
routes exactly as an unset source, by the configured default; and no
value is ever rejected — routing always resolves to one of the two
variants. -/
theorem C10_amended_substring_routing :
    (∀ s cfg, pyContains "runpod" (pyLower s) = true →
      route (some s) cfg = ProviderKind.runpod) ∧
    (∀ s cfg, s ≠ "" → pyContains "runpod" (pyLower s) = false →
      route (some s) cfg = ProviderKind.bedrock) ∧
    (∀ cfg, route (some "") cfg = route none cfg) ∧
    (∀ ms cfg, route ms cfg = ProviderKind.runpod ∨ route ms cfg = ProviderKind.bedrock) := by
  refine ⟨?_, ?_, ?_, ?_⟩
  · intro s cfg h
    by_cases hs : s = ""
    · rw [hs] at h
      exact absurd h (by decide)
    · rw [route_some_ne_empty s cfg hs]
      unfold selectedProvider
      simp [h]
  · intro s cfg hs h
    rw [route_some_ne_empty s cfg hs]
    unfold selectedProvider
    simp [h]
  · intro cfg
    rfl
  · intro ms cfg
    unfold route selectedProvider
    by_cases h : pyContains "runpod" (resolveSource ms cfg) <;> simp [h]

/-- Witness for the amended C10: `"xrunpodx"` routes to the
fine-tuned variant, `"openai"` routes to the managed variant. -/
theorem C10_witness_substring_routing :
    route (some "xrunpodx") "bedrock" = ProviderKind.runpod ∧
    route (some "openai") "runpod" = ProviderKind.bedrock :=
  ⟨C10_amended_substring_routing.1 "xrunpodx" "bedrock" (by decide),
   C10_amended_substring_routing.2.1 "openai" "runpod" (by decide) (by decide)⟩
